import Mathlib

/-!
Verification of the Click payment gateway client
(`paytechuz/gateways/click/client.py`).

The gateway façade `ClickGateway` exposes three operations:
`create_payment` (pure URL assembly), `check_payment` and `cancel_payment`
(which parse a composite transaction id and delegate to the merchant API).
The merchant API (`ClickMerchantApi`) is an external collaborator of this
core; it is modelled as an oracle function passed to each operation, and a
merchant JSON payload is modelled as an association list of string keys to
JSON-like values.
-/

/-- A JSON-like value appearing in a merchant API payload. -/
inductive Value where
  | vStr : String → Value
  | vInt : Int → Value
  | vNull : Value
  deriving DecidableEq, Repr

/-- A merchant API payload: a Python dict from string keys to values. -/
abbrev Payload := List (String × Value)

/-- Python `dict.get(k)`: the value at key `k`, or `None` when absent. -/
def dictGet (p : Payload) (k : String) : Option Value :=
  p.lookup k

/-- Splits a list of characters at every occurrence of `sep`
(the semantics of Python `str.split` with a one-character separator). -/
def splitChar (sep : Char) : List Char → List (List Char)
  | [] => [[]]
  | c :: rest =>
    let r := splitChar sep rest
    if c = sep then [] :: r
    else
      match r with
      | [] => [[c]]
      | h :: t => (c :: h) :: t

/-- Python `s.split(sep)` for a one-character separator, on Lean strings. -/
def pySplit (sep : Char) (s : String) : List String :=
  (splitChar sep s.toList).map (fun cs => String.mk cs)

/-- The configuration of a `ClickGateway` (`__init__` arguments that the
URL-building and parsing paths read). -/
structure ClickGateway where
  service_id : String
  merchant_id : String
  deriving DecidableEq, Repr

/-- The dict returned by `ClickGateway.check_payment`. -/
structure PaymentResult where
  transaction_id : String
  status : String
  amount : Option Value
  paid_at : Option Value
  created_at : Option Value
  raw_response : Payload
  deriving DecidableEq, Repr

/-- The dict returned by `ClickGateway.cancel_payment`. -/
structure CancelResult where
  transaction_id : String
  status : String
  cancelled_at : Option Value
  raw_response : Payload
  deriving DecidableEq, Repr

/-- Python truthiness of an optional string (`None` and `""` are falsy). -/
def truthyStr : Option String → Bool
  | none => false
  | some v => v != ""

/-- The method `ClickGateway.create_payment(id, amount, **kwargs)`.

`id` and `amount` are taken already rendered to strings (Python formats
them with f-strings). The three kwargs that reach the URL are modelled as
`Option String`, `none` meaning the key is absent from `kwargs`. -/
def create_payment (g : ClickGateway) (id amount : String)
    (description return_url callback_url : Option String) : String :=
  let description := description.getD ("Payment for account " ++ id)
  let payment_url := "https://my.click.uz/services/pay"
  let payment_url := payment_url ++ "?service_id=" ++ g.service_id
  let payment_url := payment_url ++ "&merchant_id=" ++ g.merchant_id
  let payment_url := payment_url ++ "&amount=" ++ amount
  let payment_url := payment_url ++ "&transaction_param=" ++ id
  let payment_url := if truthyStr return_url then
    payment_url ++ "&return_url=" ++ return_url.getD "" else payment_url
  let payment_url := if truthyStr callback_url then
    payment_url ++ "&callback_url=" ++ callback_url.getD "" else payment_url
  let payment_url := if description != "" then
    payment_url ++ "&merchant_user_id=" ++ description else payment_url
  payment_url

/-- The `status_mapping` dict of `check_payment`. -/
def status_mapping : List (String × String) :=
  [("success", "paid"), ("processing", "waiting"),
   ("failed", "failed"), ("cancelled", "cancelled")]

/-- The lookup `status_mapping.get(status, 'unknown')`: a missing status or any value
that is not a mapped string degrades to `"unknown"`. -/
def mapStatus (status : Option Value) : String :=
  match status with
  | some (Value.vStr s) => (status_mapping.lookup s).getD "unknown"
  | _ => "unknown"

/-- The transaction-id guard shared by `check_payment` and
`cancel_payment`: at least 3 underscore-delimited segments and the first
equal to `"click"`. -/
def wellFormedClick (tid : String) : Prop :=
  3 ≤ (pySplit '_' tid).length ∧ (pySplit '_' tid).getD 0 "" = "click"

instance (tid : String) : Decidable (wellFormedClick tid) := by
  unfold wellFormedClick
  infer_instance

/-- The `account_id` both operations extract: `parts[1]`. -/
def accountOf (tid : String) : String :=
  (pySplit '_' tid).getD 1 ""

/-- The method `ClickGateway.check_payment(transaction_id)`.

`api` is the oracle for `self.merchant_api.check_payment`; a raised
`ValueError` is the `Except.error` branch, carrying the message. -/
def check_payment (g : ClickGateway) (api : String → Payload)
    (transaction_id : String) : Except String PaymentResult :=
  let parts := pySplit '_' transaction_id
  if parts.length < 3 ∨ parts.getD 0 "" ≠ "click" then
    Except.error ("Invalid transaction ID format: " ++ transaction_id)
  else
    let account_id := parts.getD 1 ""
    let payment_data := api account_id
    let status := dictGet payment_data "status"
    let mapped_status := mapStatus status
    Except.ok
      { transaction_id := transaction_id
        status := mapped_status
        amount := dictGet payment_data "amount"
        paid_at := dictGet payment_data "paid_at"
        created_at := dictGet payment_data "created_at"
        raw_response := payment_data }

/-- The method `ClickGateway.cancel_payment(transaction_id, reason=None)`.

`api` is the oracle for `self.merchant_api.cancel_payment`. -/
def cancel_payment (g : ClickGateway)
    (api : String → Option String → Payload)
    (transaction_id : String) (reason : Option String) :
    Except String CancelResult :=
  let parts := pySplit '_' transaction_id
  if parts.length < 3 ∨ parts.getD 0 "" ≠ "click" then
    Except.error ("Invalid transaction ID format: " ++ transaction_id)
  else
    let account_id := parts.getD 1 ""
    let cancel_data := api account_id reason
    Except.ok
      { transaction_id := transaction_id
        status := "cancelled"
        cancelled_at := dictGet cancel_data "cancelled_at"
        raw_response := cancel_data }

/-- The query-parameter list of the Click payment URL, in order, as the
spec's URL template presents it: four mandatory parameters followed by the
three optional ones. -/
def clickQueryParams (g : ClickGateway) (id amount : String)
    (description return_url callback_url : Option String) :
    List (String × String) :=
  let eff := description.getD ("Payment for account " ++ id)
  [("service_id", g.service_id), ("merchant_id", g.merchant_id),
   ("amount", amount), ("transaction_param", id)]
    ++ (if truthyStr return_url then [("return_url", return_url.getD "")] else [])
    ++ (if truthyStr callback_url then [("callback_url", callback_url.getD "")] else [])
    ++ (if eff != "" then [("merchant_user_id", eff)] else [])

/-- Renders `&key=value` pairs onto an accumulated URL string. -/
def renderParams (s : String) : List (String × String) → String
  | [] => s
  | (k, v) :: rest => renderParams (s ++ "&" ++ k ++ "=" ++ v) rest

/-- Renders a base URL with a query-parameter list (`?` before the first
parameter, `&` before each of the rest). -/
def renderPayUrl (base : String) : List (String × String) → String
  | [] => base
  | (k, v) :: rest => renderParams (base ++ "?" ++ k ++ "=" ++ v) rest

/-- Concrete merchant-API oracle answering every account with native
status `"success"` and some payment details. -/
def apiSuccess : String → Payload := fun _ =>
  [("status", Value.vStr "success"), ("amount", Value.vInt 150000),
   ("paid_at", Value.vStr "2025-01-01"), ("created_at", Value.vStr "2024-12-31")]

/-- Concrete merchant-API oracle answering with an empty payload. -/
def apiEmpty : String → Payload := fun _ => []

/-- Concrete cancel oracle recording a cancellation timestamp. -/
def capiCancelled : String → Option String → Payload := fun _ _ =>
  [("cancelled_at", Value.vStr "2025-01-02")]

/-- Concrete cancel oracle answering with an empty payload. -/
def capiEmpty : String → Option String → Payload := fun _ _ => []

/-- Concrete merchant-API oracle answering with a vendor status outside
the fixed mapping. -/
def apiWeird : String → Payload := fun _ => [("status", Value.vStr "refunded")]

/-! ## Shared lemmas -/

/-- The raising guard of `check_payment`/`cancel_payment` fires exactly on
ids that are not well-formed. -/
theorem guard_iff (tid : String) :
    ((pySplit '_' tid).length < 3 ∨ (pySplit '_' tid).getD 0 "" ≠ "click") ↔
      ¬ wellFormedClick tid := by
  unfold wellFormedClick
  rw [not_and_or, not_le]

/-- On a well-formed transaction id, `check_payment` succeeds and each
field of the returned dict is as built from the merchant payload. -/
theorem check_payment_ok (g : ClickGateway) (api : String → Payload)
    (tid : String) (h : wellFormedClick tid) :
    check_payment g api tid = Except.ok
      { transaction_id := tid
        status := mapStatus (dictGet (api (accountOf tid)) "status")
        amount := dictGet (api (accountOf tid)) "amount"
        paid_at := dictGet (api (accountOf tid)) "paid_at"
        created_at := dictGet (api (accountOf tid)) "created_at"
        raw_response := api (accountOf tid) } := by
  simp only [check_payment, accountOf]
  rw [if_neg (fun hc => (guard_iff tid).mp hc h)]

/-- On a well-formed transaction id, `cancel_payment` succeeds and each
field of the returned dict is as built from the merchant payload. -/
theorem cancel_payment_ok (g : ClickGateway)
    (capi : String → Option String → Payload)
    (tid : String) (reason : Option String) (h : wellFormedClick tid) :
    cancel_payment g capi tid reason = Except.ok
      { transaction_id := tid
        status := "cancelled"
        cancelled_at := dictGet (capi (accountOf tid) reason) "cancelled_at"
        raw_response := capi (accountOf tid) reason } := by
  simp only [cancel_payment, accountOf]
  rw [if_neg (fun hc => (guard_iff tid).mp hc h)]

/-- A string absent from the keys of `status_mapping` looks up to `none`. -/
theorem status_mapping_lookup_none (s : String) (h1 : s ≠ "success")
    (h2 : s ≠ "processing") (h3 : s ≠ "failed") (h4 : s ≠ "cancelled") :
    status_mapping.lookup s = none := by
  simp [status_mapping, List.lookup, beq_eq_false_iff_ne.mpr h1,
    beq_eq_false_iff_ne.mpr h2, beq_eq_false_iff_ne.mpr h3,
    beq_eq_false_iff_ne.mpr h4]

/-- A pair of `status_mapping` looks up to its mapped value. -/
theorem status_mapping_lookup_mem (s m : String)
    (h : (s, m) ∈ status_mapping) : status_mapping.lookup s = some m := by
  simp [status_mapping] at h
  rcases h with ⟨h1, h2⟩ | ⟨h1, h2⟩ | ⟨h1, h2⟩ | ⟨h1, h2⟩ <;>
    subst h1 <;> subst h2 <;> rfl

/-- The payment URL built by `create_payment`, flattened to one append
chain with each conditional segment in place. -/
theorem create_payment_canonical (g : ClickGateway) (id amount : String)
    (d r c : Option String) :
    create_payment g id amount d r c =
      "https://my.click.uz/services/pay?service_id=" ++ g.service_id
        ++ "&merchant_id=" ++ g.merchant_id
        ++ "&amount=" ++ amount
        ++ "&transaction_param=" ++ id
        ++ (if truthyStr r then "&return_url=" ++ r.getD "" else "")
        ++ (if truthyStr c then "&callback_url=" ++ c.getD "" else "")
        ++ (if (d.getD ("Payment for account " ++ id)) != "" then
              "&merchant_user_id=" ++ d.getD ("Payment for account " ++ id)
            else "") := by
  apply String.ext
  cases hr : truthyStr r <;> cases hc : truthyStr c <;>
    cases hd : (d.getD ("Payment for account " ++ id)) != "" <;>
    simp [create_payment, hr, hc, hd, String.data_append]

/-- The defaulted payment description is never the empty string. -/
theorem payment_for_account_ne (id : String) :
    "Payment for account " ++ id ≠ "" := by
  intro h
  have h2 := congrArg String.data h
  simp [String.data_append] at h2

/-- On a malformed transaction id both operations raise the
invalid-format `ValueError`, whatever the merchant-API oracles answer. -/
theorem invalid_id_errors (tid : String) (h : ¬ wellFormedClick tid)
    (g : ClickGateway) (api : String → Payload)
    (capi : String → Option String → Payload) (reason : Option String) :
    check_payment g api tid =
        Except.error ("Invalid transaction ID format: " ++ tid) ∧
      cancel_payment g capi tid reason =
        Except.error ("Invalid transaction ID format: " ++ tid) := by
  constructor
  · simp only [check_payment]
    rw [if_pos ((guard_iff tid).mpr h)]
  · simp only [cancel_payment]
    rw [if_pos ((guard_iff tid).mpr h)]

/-! ## Claims -/

/-- Claim C1 (counterexample): the spec example's URL is not what
`create_payment(id=42, amount=150000, return_url="https://x/done")`
returns — the description kwarg defaults to a truthy string, so the code
appends a further `merchant_user_id` query parameter. -/
theorem create_payment_example_ne_claimed :
    create_payment ⟨"S", "M"⟩ "42" "150000" none (some "https://x/done") none ≠
      "https://my.click.uz/services/pay?service_id=S&merchant_id=M&amount=150000&transaction_param=42&return_url=https://x/done" := by
  decide

/-- Claim C1 (amended): with `service_id=S`, `merchant_id=M`,
`create_payment(id=42, amount=150000, return_url="https://x/done")`
returns the claimed URL with the defaulted description appended as
`&merchant_user_id=Payment for account 42`. -/
theorem create_payment_example_url :
    create_payment ⟨"S", "M"⟩ "42" "150000" none (some "https://x/done") none =
      "https://my.click.uz/services/pay?service_id=S&merchant_id=M&amount=150000&transaction_param=42&return_url=https://x/done&merchant_user_id=Payment for account 42" := by
  decide

/-- Claim C2: on every transaction id without at least 3
underscore-delimited segments whose first segment is `"click"`, both
`check_payment` and `cancel_payment` fail with the invalid-format
`ValueError`, for every merchant-API oracle — so the merchant API is
never consulted. -/
theorem invalid_transaction_id_rejected (tid : String)
    (h : ¬ wellFormedClick tid) (g : ClickGateway)
    (api : String → Payload) (capi : String → Option String → Payload)
    (reason : Option String) :
    check_payment g api tid =
        Except.error ("Invalid transaction ID format: " ++ tid) ∧
      cancel_payment g capi tid reason =
        Except.error ("Invalid transaction ID format: " ++ tid) :=
  invalid_id_errors tid h g api capi reason

/-- Witness for C2 at the spec's own examples `"bogus"` and
`"click_123"`. -/
theorem invalid_transaction_id_rejected_witness :
    (check_payment ⟨"S", "M"⟩ apiEmpty "bogus" =
        Except.error "Invalid transaction ID format: bogus" ∧
      cancel_payment ⟨"S", "M"⟩ capiEmpty "bogus" none =
        Except.error "Invalid transaction ID format: bogus") ∧
    (check_payment ⟨"S", "M"⟩ apiEmpty "click_123" =
        Except.error "Invalid transaction ID format: click_123" ∧
      cancel_payment ⟨"S", "M"⟩ capiEmpty "click_123" none =
        Except.error "Invalid transaction ID format: click_123") :=
  ⟨invalid_transaction_id_rejected "bogus" (by decide) ⟨"S", "M"⟩
      apiEmpty capiEmpty none,
    invalid_transaction_id_rejected "click_123" (by decide) ⟨"S", "M"⟩
      apiEmpty capiEmpty none⟩

/-- Claim C8: on every well-formed transaction id and merchant response,
`check_payment` returns a `PaymentResult` whose `transaction_id` echoes
the input, whose `amount`, `paid_at` and `created_at` are copied from the
merchant payload, and whose `raw_response` is the whole payload. -/
theorem check_payment_result_fields (g : ClickGateway)
    (api : String → Payload) (tid : String) (h : wellFormedClick tid) :
    ∃ r : PaymentResult, check_payment g api tid = Except.ok r ∧
      r.transaction_id = tid ∧
      r.amount = dictGet (api (accountOf tid)) "amount" ∧
      r.paid_at = dictGet (api (accountOf tid)) "paid_at" ∧
      r.created_at = dictGet (api (accountOf tid)) "created_at" ∧
      r.raw_response = api (accountOf tid) :=
  ⟨_, check_payment_ok g api tid h, rfl, rfl, rfl, rfl, rfl⟩

/-- Witness for C8 on `"click_42_150000"` against a concrete payload. -/
theorem check_payment_result_fields_witness :
    ∃ r : PaymentResult,
      check_payment ⟨"S", "M"⟩ apiSuccess "click_42_150000" = Except.ok r ∧
        r.transaction_id = "click_42_150000" ∧
        r.amount = some (Value.vInt 150000) ∧
        r.paid_at = some (Value.vStr "2025-01-01") ∧
        r.created_at = some (Value.vStr "2024-12-31") ∧
        r.raw_response = apiSuccess "42" :=
  check_payment_result_fields ⟨"S", "M"⟩ apiSuccess "click_42_150000"
    (by decide)

/-- Claim C7: on every well-formed transaction id, `cancel_payment`
returns a dict with constant `status = "cancelled"`, `cancelled_at` taken
from the merchant cancel payload and `raw_response` the whole payload;
on a malformed id it fails exactly as `check_payment` does, with the same
invalid-format error. -/
theorem cancel_payment_result_fields (g : ClickGateway)
    (api : String → Payload) (capi : String → Option String → Payload)
    (tid : String) (reason : Option String) :
    (wellFormedClick tid →
      cancel_payment g capi tid reason = Except.ok
        { transaction_id := tid
          status := "cancelled"
          cancelled_at := dictGet (capi (accountOf tid) reason) "cancelled_at"
          raw_response := capi (accountOf tid) reason }) ∧
    (¬ wellFormedClick tid →
      cancel_payment g capi tid reason =
          Except.error ("Invalid transaction ID format: " ++ tid) ∧
        check_payment g api tid =
          Except.error ("Invalid transaction ID format: " ++ tid)) := by
  constructor
  · intro h
    exact cancel_payment_ok g capi tid reason h
  · intro h
    exact ⟨(invalid_id_errors tid h g api capi reason).2,
      (invalid_id_errors tid h g api capi reason).1⟩

/-- Witness for C7 on `"click_42_150000"` and on `"bogus"`. -/
theorem cancel_payment_result_fields_witness :
    cancel_payment ⟨"S", "M"⟩ capiCancelled "click_42_150000" none =
        Except.ok
          { transaction_id := "click_42_150000"
            status := "cancelled"
            cancelled_at := some (Value.vStr "2025-01-02")
            raw_response := capiCancelled "42" none } ∧
      cancel_payment ⟨"S", "M"⟩ capiEmpty "bogus" none =
        Except.error "Invalid transaction ID format: bogus" :=
  ⟨(cancel_payment_result_fields ⟨"S", "M"⟩ apiEmpty capiCancelled
        "click_42_150000" none).1 (by decide),
    ((cancel_payment_result_fields ⟨"S", "M"⟩ apiEmpty capiEmpty
        "bogus" none).2 (by decide)).1⟩

/-- Claim C3: on every well-formed transaction id, `check_payment`
succeeds whatever the merchant payload holds, and whenever the payload's
native status is missing, not a string, or a string outside the fixed
mapping `{success, processing, failed, cancelled}`, the returned status
is the canonical `"unknown"`. -/
theorem check_payment_unknown_status (g : ClickGateway)
    (api : String → Payload) (tid : String) (h : wellFormedClick tid) :
    ∃ r : PaymentResult, check_payment g api tid = Except.ok r ∧
      ((∀ s : String,
          dictGet (api (accountOf tid)) "status" = some (Value.vStr s) →
            s ≠ "success" ∧ s ≠ "processing" ∧ s ≠ "failed" ∧
              s ≠ "cancelled") →
        r.status = "unknown") := by
  refine ⟨_, check_payment_ok g api tid h, ?_⟩
  intro hs
  cases hv : dictGet (api (accountOf tid)) "status" with
  | none => simp [mapStatus, hv]
  | some v =>
    cases v with
    | vStr s =>
      obtain ⟨h1, h2, h3, h4⟩ := hs s hv
      simp [mapStatus, hv, status_mapping_lookup_none s h1 h2 h3 h4]
    | vInt n => simp [mapStatus, hv]
    | vNull => simp [mapStatus, hv]

/-- Witness for C3 on `"click_7_5"` with the unmapped vendor status
`"refunded"`. -/
theorem check_payment_unknown_status_witness :
    ∃ r : PaymentResult,
      check_payment ⟨"S", "M"⟩ apiWeird "click_7_5" = Except.ok r ∧
        ((∀ s : String,
            dictGet (apiWeird (accountOf "click_7_5")) "status" =
                some (Value.vStr s) →
              s ≠ "success" ∧ s ≠ "processing" ∧ s ≠ "failed" ∧
                s ≠ "cancelled") →
          r.status = "unknown") :=
  check_payment_unknown_status ⟨"S", "M"⟩ apiWeird "click_7_5" (by decide)

/-- Claim C6: on a well-formed transaction id whose merchant payload
carries a native status in the fixed mapping, `check_payment` returns the
mapped canonical status (success↦paid, processing↦waiting, failed↦failed,
cancelled↦cancelled). -/
theorem check_payment_status_mapped (g : ClickGateway)
    (api : String → Payload) (tid : String) (h : wellFormedClick tid)
    (s m : String) (hm : (s, m) ∈ status_mapping)
    (hs : dictGet (api (accountOf tid)) "status" = some (Value.vStr s)) :
    ∃ r : PaymentResult,
      check_payment g api tid = Except.ok r ∧ r.status = m := by
  refine ⟨_, check_payment_ok g api tid h, ?_⟩
  simp [mapStatus, hs, status_mapping_lookup_mem s m hm]

/-- Witness for C6: the spec example `check_payment("click_42_150000")`
with native status `"success"` yields canonical status `"paid"`. -/
theorem check_payment_status_mapped_witness :
    ∃ r : PaymentResult,
      check_payment ⟨"S", "M"⟩ apiSuccess "click_42_150000" =
          Except.ok r ∧ r.status = "paid" :=
  check_payment_status_mapped ⟨"S", "M"⟩ apiSuccess "click_42_150000"
    (by decide) "success" "paid" (by decide) (by decide)

/-- Claim C9: the operations use only the second underscore-delimited
segment of the transaction id as the account id: two well-formed ids
agreeing on that segment hit the merchant API at the same account and,
given the same merchant response, their results agree on every field
except the echoed `transaction_id`; the amount segment is never used. -/
theorem account_segment_determines_result (g : ClickGateway)
    (api : String → Payload) (capi : String → Option String → Payload)
    (t1 t2 : String) (reason : Option String)
    (h1 : wellFormedClick t1) (h2 : wellFormedClick t2)
    (hacc : (pySplit '_' t1).getD 1 "" = (pySplit '_' t2).getD 1 "") :
    ∃ r1 r2 : PaymentResult,
      check_payment g api t1 = Except.ok r1 ∧
      check_payment g api t2 = Except.ok r2 ∧
      r1.status = r2.status ∧ r1.amount = r2.amount ∧
      r1.paid_at = r2.paid_at ∧ r1.created_at = r2.created_at ∧
      r1.raw_response = r2.raw_response ∧
      r1.raw_response = api ((pySplit '_' t1).getD 1 "") ∧
      ∃ c1 c2 : CancelResult,
        cancel_payment g capi t1 reason = Except.ok c1 ∧
        cancel_payment g capi t2 reason = Except.ok c2 ∧
        c1.status = c2.status ∧ c1.cancelled_at = c2.cancelled_at ∧
        c1.raw_response = c2.raw_response ∧
        c1.raw_response = capi ((pySplit '_' t1).getD 1 "") reason := by
  have hacc' : accountOf t1 = accountOf t2 := hacc
  refine ⟨_, _, check_payment_ok g api t1 h1, check_payment_ok g api t2 h2,
    ?_, ?_, ?_, ?_, ?_, rfl, _, _, cancel_payment_ok g capi t1 reason h1,
    cancel_payment_ok g capi t2 reason h2, rfl, ?_, ?_, rfl⟩ <;>
    simp [hacc']

/-- Witness for C9: `"click_42_150000"` and `"click_42_9_extra"` share
the account segment `"42"` and get identical results apart from the
echoed id. -/
theorem account_segment_determines_result_witness :
    ∃ r1 r2 : PaymentResult,
      check_payment ⟨"S", "M"⟩ apiSuccess "click_42_150000" = Except.ok r1 ∧
      check_payment ⟨"S", "M"⟩ apiSuccess "click_42_9_extra" = Except.ok r2 ∧
      r1.status = r2.status ∧ r1.amount = r2.amount ∧
      r1.paid_at = r2.paid_at ∧ r1.created_at = r2.created_at ∧
      r1.raw_response = r2.raw_response ∧
      r1.raw_response = apiSuccess ((pySplit '_' "click_42_150000").getD 1 "") ∧
      ∃ c1 c2 : CancelResult,
        cancel_payment ⟨"S", "M"⟩ capiCancelled "click_42_150000" none =
            Except.ok c1 ∧
        cancel_payment ⟨"S", "M"⟩ capiCancelled "click_42_9_extra" none =
            Except.ok c2 ∧
        c1.status = c2.status ∧ c1.cancelled_at = c2.cancelled_at ∧
        c1.raw_response = c2.raw_response ∧
        c1.raw_response =
          capiCancelled ((pySplit '_' "click_42_150000").getD 1 "") none :=
  account_segment_determines_result ⟨"S", "M"⟩ apiSuccess capiCancelled
    "click_42_150000" "click_42_9_extra" none (by decide) (by decide)
    (by decide)

/-- Claim C4: every URL returned by `create_payment` is the base
`https://my.click.uz/services/pay` followed by its query parameters,
which are drawn in order from
`service_id, merchant_id, amount, transaction_param, return_url,
callback_url, merchant_user_id` (the optional three present or absent),
with the four mandatory ones always first and no other parameter. -/
theorem create_payment_url_shape (g : ClickGateway) (id amount : String)
    (d r c : Option String) :
    create_payment g id amount d r c =
        renderPayUrl "https://my.click.uz/services/pay"
          (clickQueryParams g id amount d r c) ∧
      List.Sublist ((clickQueryParams g id amount d r c).map Prod.fst)
        ["service_id", "merchant_id", "amount", "transaction_param",
         "return_url", "callback_url", "merchant_user_id"] ∧
      ∃ rest, (clickQueryParams g id amount d r c).map Prod.fst =
        ["service_id", "merchant_id", "amount", "transaction_param"] ++ rest := by
  refine ⟨?_, ?_, ?_⟩
  · apply String.ext
    cases hr : truthyStr r <;> cases hc : truthyStr c <;>
      cases hd : (d.getD ("Payment for account " ++ id)) != "" <;>
      simp [create_payment, clickQueryParams, renderPayUrl, renderParams,
        hr, hc, hd, String.data_append]
  · cases hr : truthyStr r <;> cases hc : truthyStr c <;>
      cases hd : (d.getD ("Payment for account " ++ id)) != "" <;>
      simp [clickQueryParams, hr, hc, hd]
  · cases hr : truthyStr r <;> cases hc : truthyStr c <;>
      cases hd : (d.getD ("Payment for account " ++ id)) != "" <;>
      simp [clickQueryParams, hr, hc, hd]

/-- Claim C5: `create_payment` is a pure function of the gateway
configuration and its arguments — equal inputs give byte-identical URLs —
and the returned URL contains the substrings `amount={amount}` and
`transaction_param={id}`. -/
theorem create_payment_deterministic (g : ClickGateway)
    (id amount : String) (d r c : Option String) :
    create_payment g id amount d r c = create_payment g id amount d r c ∧
      (∃ p q : String,
        create_payment g id amount d r c = p ++ ("amount=" ++ amount) ++ q) ∧
      ∃ p q : String,
        create_payment g id amount d r c =
          p ++ ("transaction_param=" ++ id) ++ q := by
  refine ⟨rfl,
    ⟨"https://my.click.uz/services/pay?service_id=" ++ g.service_id
        ++ "&merchant_id=" ++ g.merchant_id ++ "&",
      "&transaction_param=" ++ id
        ++ (if truthyStr r then "&return_url=" ++ r.getD "" else "")
        ++ (if truthyStr c then "&callback_url=" ++ c.getD "" else "")
        ++ (if (d.getD ("Payment for account " ++ id)) != "" then
              "&merchant_user_id=" ++ d.getD ("Payment for account " ++ id)
            else ""), ?_⟩,
    ⟨"https://my.click.uz/services/pay?service_id=" ++ g.service_id
        ++ "&merchant_id=" ++ g.merchant_id ++ "&amount=" ++ amount ++ "&",
      (if truthyStr r then "&return_url=" ++ r.getD "" else "")
        ++ (if truthyStr c then "&callback_url=" ++ c.getD "" else "")
        ++ (if (d.getD ("Payment for account " ++ id)) != "" then
              "&merchant_user_id=" ++ d.getD ("Payment for account " ++ id)
            else ""), ?_⟩⟩ <;>
  · rw [create_payment_canonical]
    apply String.ext
    cases hr : truthyStr r <;> cases hc : truthyStr c <;>
      cases hd : (d.getD ("Payment for account " ++ id)) != "" <;>
      simp [hr, hc, hd, String.data_append]

/-- Claim C10: `create_payment` appends the `merchant_user_id` parameter
exactly when the effective description is truthy; omitting the
description kwarg defaults it to the nonempty `Payment for account {id}`,
so the parameter then carries that default, and only an explicitly falsy
description (the empty string) suppresses it. -/
theorem merchant_user_id_iff_description (g : ClickGateway)
    (id amount : String) (d r c : Option String) :
    (d.getD ("Payment for account " ++ id) ≠ "" →
      create_payment g id amount d r c =
        create_payment g id amount (some "") r c
          ++ "&merchant_user_id=" ++ d.getD ("Payment for account " ++ id)) ∧
    (d.getD ("Payment for account " ++ id) = "" →
      create_payment g id amount d r c =
        create_payment g id amount (some "") r c) ∧
    "Payment for account " ++ id ≠ "" ∧
    (d = none →
      create_payment g id amount d r c =
        create_payment g id amount (some "") r c
          ++ "&merchant_user_id=Payment for account " ++ id) := by
  refine ⟨?_, ?_, payment_for_account_ne id, ?_⟩
  · intro h
    rw [create_payment_canonical, create_payment_canonical]
    apply String.ext
    cases hr : truthyStr r <;> cases hc : truthyStr c <;>
      simp [hr, hc, String.data_append, bne_iff_ne.mpr h]
  · intro h
    rw [create_payment_canonical, create_payment_canonical]
    simp [h]
  · intro h
    subst h
    rw [create_payment_canonical, create_payment_canonical]
    apply String.ext
    cases hr : truthyStr r <;> cases hc : truthyStr c <;>
      simp [hr, hc, String.data_append,
        bne_iff_ne.mpr (payment_for_account_ne id)]

/-- Witness for C10: with the description kwarg omitted the URL gains
`&merchant_user_id=Payment for account 42`; with an explicitly empty
description it does not. -/
theorem merchant_user_id_iff_description_witness :
    create_payment ⟨"S", "M"⟩ "42" "100" none none none =
        create_payment ⟨"S", "M"⟩ "42" "100" (some "") none none
          ++ "&merchant_user_id=Payment for account " ++ "42" ∧
      create_payment ⟨"S", "M"⟩ "42" "100" (some "") none none =
        create_payment ⟨"S", "M"⟩ "42" "100" (some "") none none :=
  ⟨(merchant_user_id_iff_description ⟨"S", "M"⟩ "42" "100"
        none none none).2.2.2 rfl,
    (merchant_user_id_iff_description ⟨"S", "M"⟩ "42" "100"
        (some "") none none).2.1 rfl⟩
